import Mathlib

/-!
Verification development for the `ba-coupon-checker` repository
(`src/coupon-checker.py`, `src/checker.py`).

The Python sources are shallowly embedded below:

* Python strings are Lean `String`s; the handful of string methods the
  program uses (`strip`, `lower`, `replace("\n", " ")`, slicing, the
  `in` substring test) are modelled by the executable `py*` helpers.
* The process-wide random source (`random.Random`) is modelled by a
  stream `Nat → Nat` together with a cursor: draw `i` of
  `rng.choice(cs)` yields `cs[stream i % cs.length]`.  Every sequence
  of choices the real generator can make corresponds to some stream.
* Playwright calls are modelled by a `Browser` record of oracles; each
  fallible call is an `Except PyError α` value.  A raised Python
  exception is `Except.error`; `PyError` carries `str(e)`, whether the
  exception is a `PlaywrightTimeoutError`, `type(e).__name__` and the
  `traceback.format_exc()` text.
* I/O that does not influence any returned value (console printing,
  Discord HTTP posts, the actual screenshot file write, closing the
  browser) is not modelled; the screenshot *decision* and path are.
-/

/-! ## Python string primitives -/

/-- Characters removed by Python `str.strip()` (default whitespace). -/
def isPySpace (c : Char) : Bool :=
  c = ' ' || c = '\t' || c = '\n' || c = '\r' || c = '\x0b' || c = '\x0c'

/-- List-level model of Python `str.strip()`. -/
def pyStripList (l : List Char) : List Char :=
  ((l.dropWhile isPySpace).reverse.dropWhile isPySpace).reverse

/-- Python `s.strip()`. -/
def pyStrip (s : String) : String := ⟨pyStripList s.data⟩

/-- Python `s.lower()` (the program only lowercases ASCII policy names). -/
def pyLower (s : String) : String := ⟨s.data.map Char.toLower⟩

/-- Python `s.replace("\n", " ")`: a one-character pattern replaced by a
one-character replacement is a `map`. -/
def pyReplaceNl (s : String) : String :=
  ⟨s.data.map (fun c => if c = '\n' then ' ' else c)⟩

/-- Substring test on lists, used to model Python `pat in hay`. -/
def containsSubList : List Char → List Char → Bool
  | [], pat => pat.isEmpty
  | c :: t, pat => pat.isPrefixOf (c :: t) || containsSubList t pat

/-- Python `pat in hay` for strings. -/
def containsSub (hay pat : String) : Bool := containsSubList hay.data pat.data

/-- Python slice `l[:k]` for a possibly negative bound `k`
(`l[:-n]` drops the last `n` elements, clamped at the empty list). -/
def pySliceTo (l : List Char) (k : Int) : List Char :=
  if k < 0 then l.take (l.length - min l.length k.natAbs)
  else l.take k.toNat

/-- Python truthiness of an `Optional[str]`: `None` and `""` are falsy. -/
def pyTruthy : Option String → Bool
  | none => false
  | some s => !(s == "")

/-- Python `x or d` for `x : Optional[str]` and a default string `d`. -/
def pyOrStr (o : Option String) (d : String) : String :=
  if pyTruthy o then o.getD "" else d

/-! ## Coupon generator (`generate_coupon_code`, identical in
`src/coupon-checker.py` lines 240-278 and `src/checker.py` lines 98-137) -/

/-- `ALPHANUM` charset from the sources. -/
def ALPHANUM : List Char := "ABCDEFGHIJKLMNOPQRSTUVWXYZ0123456789".data

/-- `LETTERS` charset from the sources. -/
def LETTERS : List Char := "ABCDEFGHIJKLMNOPQRSTUVWXYZ".data

/-- `can_use(ch, prev)` with the enclosing `counts` dict made explicit. -/
def can_use (counts : Char → Nat) (ch : Char) (prev : Option Char) : Bool :=
  if prev = some ch then false
  else if 2 ≤ counts ch then false
  else true

/-- `pick_from(charset, prev)`: up to `fuel` (source: 300) draws from the
rng stream starting at cursor `pos`; returns the accepted character (or
`none` for the `RuntimeError`) together with the new cursor. -/
def pick_from (stream : Nat → Nat) (charset : List Char) (counts : Char → Nat)
    (prev : Option Char) : Nat → Nat → Option Char × Nat
  | 0, pos => (none, pos)
  | Nat.succ fuel, pos =>
    let ch := charset.getD (stream pos % charset.length) 'A'
    if can_use counts ch prev then (some ch, pos + 1)
    else pick_from stream charset counts prev fuel (pos + 1)

/-- One `for _ in range(n)` segment of an attempt: append `n` characters
drawn from `charset`, updating `out`, `prev` and `counts` as the source
does.  `none` propagates the inner `RuntimeError`. -/
def gen_segment (stream : Nat → Nat) (charset : List Char) :
    Nat → List Char → Option Char → (Char → Nat) → Nat →
    Option (List Char × Option Char × (Char → Nat)) × Nat
  | 0, out, prev, counts, pos => (some (out, prev, counts), pos)
  | Nat.succ n, out, prev, counts, pos =>
    match pick_from stream charset counts prev 300 pos with
    | (none, pos') => (none, pos')
    | (some ch, pos') =>
      gen_segment stream charset n (out ++ [ch]) (some ch)
        (fun c => if c = ch then counts c + 1 else counts c) pos'

/-- One whole-string attempt: five `ALPHANUM` characters, then five
`LETTERS` characters (the source resets `counts`, `out`, `prev` at the
top of each attempt). -/
def gen_attempt (stream : Nat → Nat) (pos : Nat) : Option (List Char) × Nat :=
  match gen_segment stream ALPHANUM 5 [] none (fun _ => 0) pos with
  | (none, pos') => (none, pos')
  | (some (out, prev, counts), pos') =>
    match gen_segment stream LETTERS 5 out prev counts pos' with
    | (none, pos'') => (none, pos'')
    | (some (out', _, _), pos'') => (some out', pos'')

/-- The `for _attempt in range(300)` restart loop. -/
def gen_loop (stream : Nat → Nat) : Nat → Nat → Option (List Char)
  | 0, _ => none
  | Nat.succ n, pos =>
    match gen_attempt stream pos with
    | (some out, _) => some out
    | (none, pos') => gen_loop stream n pos'

/-- `generate_coupon_code(rng)`: `some code` when a string is returned,
`none` for the final `RuntimeError("Unable to generate ...")`. -/
def generate_coupon_code (stream : Nat → Nat) : Option String :=
  (gen_loop stream 300 0).map (fun l => ⟨l⟩)

/-! ## Configuration (`Config` dataclass, `src/coupon-checker.py` lines 19-138).
Defaults are the source's defaults; millisecond timeouts are `Nat`. -/

structure Config where
  URL : String := ""
  DISCORD_WEBHOOK_URL : String := ""
  MEMBER_CODE_VALUE : String := ""
  DEBUG_COUPON_CODE : String := ""
  ALWAYS_SEND_DISCORD : Bool := false
  SCREENSHOT_POLICY : String := "unexpected"
  SCREENSHOT_DIR : String := "screenshots"
  HEADLESS : Bool := true
  NAVIGATION_TIMEOUT_MS : Nat := 10000
  ACTION_TIMEOUT_MS : Nat := 10000
  RUN_ONCE : Bool := false
  INTERVAL_SECONDS : Nat := 2
  RANDOM_INTERVAL_MIN : Nat := 1
  RANDOM_INTERVAL_MAX : Nat := 5
  STOP_ON_UNEXPECTED : Bool := true
  HEALTHCHECK_SELECTOR : String := "body"
  REGION_SELECT_SELECTOR : String := "#eRedeemRegion"
  REGION_VALUE : String := "na"
  MEMBER_CODE_SELECTOR : String := "#eRedeemNpaCode"
  COUPON_CODE_SELECTOR : String := "#eRedeemCoupon"
  REDEEM_BUTTON_SELECTOR : String :=
    "button.btn_confirm.e-characters-with-npacode[data-message=\x27redeem\x27]"
  POPUP_ROOT_SELECTOR : String := "#popAlert"
  POPUP_ON_SELECTOR : String := "#popAlert.pop.on"
  POPUP_MESSAGE_SELECTOR : String := "#popAlert p.pop_msg"
  EXPECTED_POPUP_MESSAGE_HTML : String :=
    "The coupon cannot be used in this game.<br>Please check the coupon number again."
  POPUP_ON_WAIT_TIMEOUT_MS : Nat := 10000
  SOCKS5_PROXIES : List String :=
    ["174.138.61.184:1080", "193.233.254.8:1080", "121.169.46.116:1090",
     "185.194.217.97:1080", "194.163.167.32:1080", "195.35.113.29:1080",
     "64.227.131.240:1080", "174.138.61.184:1080", "195.35.113.29:1080"]
  SOCKS5_USERNAME : String := ""
  SOCKS5_PASSWORD : String := ""
  ENABLE_PROXY_IP_CHECK : Bool := false
  PROXY_IP_CHECK_URL : String := "https://api.ipify.org?format=json"
  PROXY_IP_CHECK_TIMEOUT_MS : Nat := 8000
  VERBOSE_NON_PROXY_ERRORS : Bool := false

/-- The module-level `CFG = Config()`. -/
def CFG : Config := {}

/-! ## Python exceptions -/

/-- A raised Python exception as the program observes it: `str(e)`,
whether `isinstance(e, PlaywrightTimeoutError)` holds, `type(e).__name__`
and the `traceback.format_exc()` text. -/
structure PyError where
  message : String
  isTimeoutError : Bool
  typeName : String
  traceback : String
deriving DecidableEq

/-- A `RuntimeError(m)` raised by the program itself (the traceback text
is opaque and unused by every modelled observable; it is left empty). -/
def mkRuntimeError (m : String) : PyError := ⟨m, false, "RuntimeError", ""⟩

/-! ## Proxy helpers (`src/coupon-checker.py` lines 172-222) -/

/-- `_normalize_socks5_proxy` (lines 172-178). -/
def _normalize_socks5_proxy (server : String) : String :=
  let s := pyStrip server
  if s = "" then s
  else if containsSub s "://" then s
  else "socks5://" ++ s

/-- The `proxy` dict handed to `chromium.launch`. -/
structure ProxyDict where
  server : String
  username : Option String
  password : Option String

/-- `_pick_playwright_socks5_proxy` (lines 181-196); `random.choice` is
modelled by an index `idx` reduced modulo the pool size. -/
def _pick_playwright_socks5_proxy (cfg : Config) (idx : Nat) :
    Option ProxyDict × Option String :=
  if cfg.SOCKS5_PROXIES = [] then (none, none)
  else
    let choice := cfg.SOCKS5_PROXIES.getD (idx % cfg.SOCKS5_PROXIES.length) ""
    let server := _normalize_socks5_proxy choice
    if server = "" then (none, none)
    else
      (some ⟨server,
        if cfg.SOCKS5_USERNAME ≠ "" then some cfg.SOCKS5_USERNAME else none,
        if cfg.SOCKS5_PASSWORD ≠ "" then some cfg.SOCKS5_PASSWORD else none⟩,
       some server)

/-- The marker table of `_is_proxyish_playwright_error` (lines 201-214). -/
def PROXY_ERROR_MARKERS : List String :=
  ["net::ERR_PROXY", "net::ERR_NO_SUPPORTED_PROXIES",
   "net::ERR_TUNNEL_CONNECTION_FAILED", "net::ERR_SOCKS_CONNECTION_FAILED",
   "net::ERR_CONNECTION_RESET", "net::ERR_CONNECTION_CLOSED",
   "net::ERR_CONNECTION_REFUSED", "net::ERR_ADDRESS_UNREACHABLE",
   "net::ERR_NAME_NOT_RESOLVED", "net::ERR_TIMED_OUT",
   "net::ERR_EMPTY_RESPONSE", "Proxy"]

/-- `_is_proxyish_playwright_error(err)` (lines 199-215), as a function of
`str(err)`. -/
def _is_proxyish_playwright_error (msg : String) : Bool :=
  PROXY_ERROR_MARKERS.any (fun m => containsSub msg m)

/-- `_one_line_error(e, limit)` (lines 218-222). -/
def _one_line_error (e : PyError) (limit : Nat) : String :=
  let s := pyStrip (pyReplaceNl e.message)
  let t := if limit < s.length then
             String.mk (pySliceTo s.data ((limit : Int) - 3)) ++ "..."
           else s
  if t = "" then e.typeName else t

/-- The attempt-boundary error classification of `run_once` (line 512):
`proxy_server and (isinstance(e, PlaywrightTimeoutError) or
_is_proxyish_playwright_error(e))`.  `true` means `infrastructure`
(a proxy-attributed transport failure), `false` means `application`. -/
def classify_attempt_error (proxy_used : Bool) (e : PyError) : Bool :=
  proxy_used && (e.isTimeoutError || _is_proxyish_playwright_error e.message)

/-! ## Screenshot policy (`src/coupon-checker.py` lines 291-321) -/

/-- `_normalize_screenshot_policy` (lines 291-296). -/
def _normalize_screenshot_policy (policy : String) : String :=
  let p := pyLower (pyStrip policy)
  if p = "never" ∨ p = "unexpected" ∨ p = "always" then p
  else "unexpected"

/-- `_should_capture_screenshot` (lines 299-306). -/
def _should_capture_screenshot (cfg : Config) (unexpected : Bool) : Bool :=
  let policy := _normalize_screenshot_policy cfg.SCREENSHOT_POLICY
  if policy = "never" then false
  else if policy = "always" then true
  else unexpected

/-- `capture_screenshot_if_needed` (lines 309-321): returns the saved
path when a screenshot is taken, else `none`; `ts` is the
`time.strftime` timestamp. -/
def capture_screenshot_if_needed (cfg : Config) (p ts : String)
    (unexpected : Bool) : Option String :=
  if _should_capture_screenshot cfg unexpected then
    some (cfg.SCREENSHOT_DIR ++ "/" ++ p ++ "_" ++ ts ++ ".png")
  else none

/-! ## Coupon for one run (`_get_coupon_for_run`, lines 281-285) -/

/-- `_get_coupon_for_run(cfg, rng)`: the stripped debug override when it
is non-empty (flagged `true`), otherwise a generated code (flag `false`);
generation exhaustion raises. -/
def _get_coupon_for_run (cfg : Config) (stream : Nat → Nat) :
    Except PyError (String × Bool) :=
  let forced := pyStrip cfg.DEBUG_COUPON_CODE
  if forced ≠ "" then Except.ok (forced, true)
  else
    match generate_coupon_code stream with
    | some code => Except.ok (code, false)
    | none =>
      Except.error (mkRuntimeError "Unable to generate a coupon code after many attempts.")

/-! ## The browser collaborator and one attempt (`run_once`, lines 327-535) -/

/-- The Playwright calls `run_once` makes, as oracles.  Each field is the
result of the corresponding call on this attempt; `Except.error e` means
the call raised `e`.  `ip_lookup` is the result of
`_check_public_ip_via_proxy` (which swallows its own errors and returns
`Optional[str]`); `shot_timestamp` is the `time.strftime` value used in
screenshot filenames. -/
structure Browser where
  launch : Except PyError Unit
  new_context : Except PyError Unit
  new_page : Except PyError Unit
  goto : Except PyError Unit
  ip_lookup : Option String
  wait_healthcheck : Except PyError Unit
  wait_popup_root : Except PyError Unit
  wait_region : Except PyError Unit
  select_region : Except PyError Unit
  region_value : Except PyError String
  wait_member : Except PyError Unit
  fill_member : Except PyError Unit
  member_value : Except PyError String
  wait_coupon : Except PyError Unit
  fill_coupon : Except PyError Unit
  coupon_value : Except PyError String
  wait_redeem : Except PyError Unit
  click_redeem : Except PyError Unit
  wait_popup_on : Except PyError Unit
  popup_html : Except PyError String
  shot_timestamp : String

/-- The tuple `run_once` returns: `(ok, message, should_stop,
proxy_load_error)`. -/
structure Outcome where
  ok : Bool
  message : String
  should_stop : Bool
  proxy_load_error : Bool
deriving DecidableEq

/-- The observable result of one `run_once` call.  `result` is the
returned tuple, or `Except.error e` when the exception `e` propagates
out of `run_once`.  The trace fields record which side-effecting steps
ran: `coupon_obtained` is set once `_get_coupon_for_run` has produced a
coupon for this attempt, `submitted` once the Redeem click succeeded,
and `caught` holds the exception handled by the attempt-boundary
`except` block (line 510), when that block ran. -/
structure RunResult where
  result : Except PyError Outcome
  coupon_obtained : Bool
  submitted : Bool
  caught : Option PyError

/-- The attempt-boundary `except Exception` handler (lines 510-531).
`ple_in` is the value of `proxy_load_error` on entry (on every path that
reaches this handler with it set, the handler's own proxyish test also
succeeds, so the returned flag is faithful). -/
def outer_catch (cfg : Config) (proxy_server : Option String)
    (ple_in : Bool) (observed_ip : Option String) (co sub : Bool)
    (e : PyError) : RunResult :=
  let is_proxyish := classify_attempt_error (pyTruthy proxy_server) e
  if is_proxyish then
    let msg := "⚠️ PROXY FAIL " ++ proxy_server.getD "" ++ " → " ++ _one_line_error e 180
    let msg := if cfg.ENABLE_PROXY_IP_CHECK && pyTruthy observed_ip
               then msg ++ " | IP=" ++ observed_ip.getD "" else msg
    ⟨Except.ok ⟨false, msg, false, true⟩, co, sub, some e⟩
  else
    let err := if cfg.VERBOSE_NON_PROXY_ERRORS
               then "Exception: " ++ e.message ++ "\n" ++ e.traceback
               else "Exception: " ++ _one_line_error e 180
    ⟨Except.ok ⟨false, err, false, ple_in⟩, co, sub, some e⟩

/-- `run_once(cfg)` (lines 327-535).  The proxy pick's `random.choice`
is the index `proxy_idx`; the coupon rng is `stream`.  Note the
launch/context/page steps (lines 341-356) precede the attempt-boundary
`try` of line 361, so their exceptions (including the deliberate
re-raise of line 351) leave `run_once`; every later raise lands in
`outer_catch`.  On the straight-line path below the `try`,
`proxy_load_error` is still `False` (each assignment to it re-raises),
so the success-path returns carry `false` literally.  The `finally`
block (context/browser close) and the Discord/print side effects do not
affect any returned value and are not modelled. -/
def run_once (cfg : Config) (b : Browser) (stream : Nat → Nat)
    (proxy_idx : Nat) : RunResult :=
  let proxy_server := (_pick_playwright_socks5_proxy cfg proxy_idx).2
  match b.launch with
  | Except.error e => ⟨Except.error e, false, false, none⟩
  | Except.ok _ =>
  match b.new_context with
  | Except.error e => ⟨Except.error e, false, false, none⟩
  | Except.ok _ =>
  match b.new_page with
  | Except.error e => ⟨Except.error e, false, false, none⟩
  | Except.ok _ =>
  match b.goto with
  | Except.error e => outer_catch cfg proxy_server false none false false e
  | Except.ok _ =>
  let observed_ip := if pyTruthy proxy_server && cfg.ENABLE_PROXY_IP_CHECK
                     then b.ip_lookup else none
  match b.wait_healthcheck with
  | Except.error e => outer_catch cfg proxy_server false observed_ip false false e
  | Except.ok _ =>
  match b.wait_popup_root with
  | Except.error e => outer_catch cfg proxy_server false observed_ip false false e
  | Except.ok _ =>
  match b.wait_region with
  | Except.error e => outer_catch cfg proxy_server false observed_ip false false e
  | Except.ok _ =>
  match b.select_region with
  | Except.error e => outer_catch cfg proxy_server false observed_ip false false e
  | Except.ok _ =>
  match b.region_value with
  | Except.error e => outer_catch cfg proxy_server false observed_ip false false e
  | Except.ok selected =>
  if selected ≠ cfg.REGION_VALUE then
    outer_catch cfg proxy_server false observed_ip false false
      (mkRuntimeError ("Region selection failed: expected \x27" ++ cfg.REGION_VALUE
        ++ "\x27, got \x27" ++ selected ++ "\x27"))
  else
  match b.wait_member with
  | Except.error e => outer_catch cfg proxy_server false observed_ip false false e
  | Except.ok _ =>
  match b.fill_member with
  | Except.error e => outer_catch cfg proxy_server false observed_ip false false e
  | Except.ok _ =>
  match b.member_value with
  | Except.error e => outer_catch cfg proxy_server false observed_ip false false e
  | Except.ok member_val =>
  if member_val ≠ cfg.MEMBER_CODE_VALUE then
    outer_catch cfg proxy_server false observed_ip false false
      (mkRuntimeError ("Member code fill failed: expected \x27" ++ cfg.MEMBER_CODE_VALUE
        ++ "\x27, got \x27" ++ member_val ++ "\x27"))
  else
  match _get_coupon_for_run cfg stream with
  | Except.error e => outer_catch cfg proxy_server false observed_ip false false e
  | Except.ok (coupon_code_used, is_debug_coupon) =>
  match b.wait_coupon with
  | Except.error e => outer_catch cfg proxy_server false observed_ip true false e
  | Except.ok _ =>
  match b.fill_coupon with
  | Except.error e => outer_catch cfg proxy_server false observed_ip true false e
  | Except.ok _ =>
  match b.coupon_value with
  | Except.error e => outer_catch cfg proxy_server false observed_ip true false e
  | Except.ok coupon_val =>
  if coupon_val ≠ coupon_code_used then
    outer_catch cfg proxy_server false observed_ip true false
      (mkRuntimeError ("Coupon code fill failed: expected \x27" ++ coupon_code_used
        ++ "\x27, got \x27" ++ coupon_val ++ "\x27"))
  else
  match b.wait_redeem with
  | Except.error e => outer_catch cfg proxy_server false observed_ip true false e
  | Except.ok _ =>
  match b.click_redeem with
  | Except.error e => outer_catch cfg proxy_server false observed_ip true false e
  | Except.ok _ =>
  match b.wait_popup_on with
  | Except.error e =>
    if e.isTimeoutError then
      let shot := capture_screenshot_if_needed cfg "popup_on_not_detected"
        b.shot_timestamp false
      let msg := "Popup did not transition to \x27on\x27 state after clicking Redeem.\nCoupon: "
        ++ coupon_code_used ++ "\nWaited for selector: " ++ cfg.POPUP_ON_SELECTOR
        ++ "\nScreenshot: " ++ pyOrStr shot "(not captured by policy)"
      let msg := if is_debug_coupon then msg ++ "\nDEBUG_COUPON_CODE used: True" else msg
      let msg := if pyTruthy proxy_server && cfg.ENABLE_PROXY_IP_CHECK
                 then msg ++ "\nProxy: " ++ proxy_server.getD ""
                   ++ "\nProxy IP: " ++ pyOrStr observed_ip "(unknown)"
                 else msg
      ⟨Except.ok ⟨false, msg, false, false⟩, true, true, none⟩
    else outer_catch cfg proxy_server false observed_ip true true e
  | Except.ok _ =>
  match b.popup_html with
  | Except.error e => outer_catch cfg proxy_server false observed_ip true true e
  | Except.ok raw =>
  let popup_html := pyStrip raw
  let is_expected_failure := popup_html == cfg.EXPECTED_POPUP_MESSAGE_HTML
  let unexpected := !is_expected_failure
  let shot := capture_screenshot_if_needed cfg "popup_on" b.shot_timestamp unexpected
  let log_msg :=
    if is_expected_failure then
      "Popup detected (popAlert is \x27on\x27). Redemption failed as expected (normal invalid-coupon message).\nCoupon: "
        ++ coupon_code_used ++ "\nPopup HTML: " ++ popup_html
        ++ "\nScreenshot: " ++ pyOrStr shot "(not captured by policy)"
    else
      "Popup detected (popAlert is \x27on\x27). Result is UNEXPECTED (message differs).\nCoupon: "
        ++ coupon_code_used ++ "\nPopup HTML: " ++ popup_html
        ++ "\nExpected HTML: " ++ cfg.EXPECTED_POPUP_MESSAGE_HTML
        ++ "\nScreenshot: " ++ pyOrStr shot "(not captured by policy)"
  let log_msg := if is_debug_coupon then log_msg ++ "\nDEBUG_COUPON_CODE used: True" else log_msg
  let log_msg := if pyTruthy proxy_server && cfg.ENABLE_PROXY_IP_CHECK
                 then log_msg ++ "\nProxy: " ++ proxy_server.getD ""
                   ++ "\nProxy IP: " ++ pyOrStr observed_ip "(unknown)"
                 else log_msg
  if (!(pyStrip raw == cfg.EXPECTED_POPUP_MESSAGE_HTML)) && cfg.STOP_ON_UNEXPECTED then
    ⟨Except.ok ⟨false, log_msg, true, false⟩, true, true, none⟩
  else
    ⟨Except.ok ⟨true, log_msg, false, false⟩, true, true, none⟩

/-! ## Scheduler (`get_randomized_interval` and `main`, lines 541-577) -/

/-- `get_randomized_interval(base, min_extra, max_extra)`; the
`random.randint(min_extra, max_extra)` draw is the input `extra`,
clamped into the inclusive range exactly as `randint` guarantees. -/
def get_randomized_interval (base min_extra max_extra extra : Nat) : Nat :=
  base + (min (max extra min_extra) max_extra)

/-- What the `main` loop does after logging one attempt's outcome, in
the source's branch order (lines 563-577): stop with `SystemExit(2)`;
break out of the loop (single-run mode); `continue` immediately with no
wait (infrastructure failure); or sleep the randomized interval and
loop. -/
inductive SchedulerAction where
  | stop
  | finishRun
  | continueNow
  | waitThen
deriving DecidableEq

/-- The per-iteration decision of `main` (lines 563-577). -/
def scheduler_next (cfg : Config) (o : Outcome) : SchedulerAction :=
  if o.should_stop then SchedulerAction.stop
  else if cfg.RUN_ONCE then SchedulerAction.finishRun
  else if o.proxy_load_error then SchedulerAction.continueNow
  else SchedulerAction.waitThen

/-- How the process ends: `SystemExit(2)` from the stop branch, falling
off `main` after the single-run break, or an exception out of
`run_once` crashing `main` (no handler there). -/
inductive ExitStatus where
  | stopUnexpected
  | completed
  | crashed
deriving DecidableEq

/-- The process exit code of each terminal state: the `SystemExit(2)`
stop code, `0` for a normal return from `main`, and the Python
runtime's default code `1` for an uncaught exception. -/
def exitCode : ExitStatus → Nat
  | ExitStatus.stopUnexpected => 2
  | ExitStatus.completed => 0
  | ExitStatus.crashed => 1

/-- The `while True` loop of `main` (lines 550-577), with the attempt
results supplied by `results` (indexed by `run_count`, which is
incremented at the top of each iteration) and a fuel bound.  Returns
the terminal state (`none` if fuel ran out first) and the number of
attempts the loop started. -/
def main_loop (cfg : Config) (results : Nat → Except PyError Outcome) :
    Nat → Nat → Option ExitStatus × Nat
  | 0, _ => (none, 0)
  | Nat.succ fuel, run_count =>
    match results (run_count + 1) with
    | Except.error _ => (some ExitStatus.crashed, 1)
    | Except.ok o =>
      match scheduler_next cfg o with
      | SchedulerAction.stop => (some ExitStatus.stopUnexpected, 1)
      | SchedulerAction.finishRun => (some ExitStatus.completed, 1)
      | SchedulerAction.continueNow =>
        let r := main_loop cfg results fuel (run_count + 1)
        (r.1, r.2 + 1)
      | SchedulerAction.waitThen =>
        let r := main_loop cfg results fuel (run_count + 1)
        (r.1, r.2 + 1)

/-! ## Concrete fixtures used to instantiate the theorems below -/

/-- A concrete rng stream: draw `i` is `i`. -/
def idStream : Nat → Nat := fun i => i

/-- The default config with an empty proxy pool (direct connection). -/
def cfgDirect : Config := { SOCKS5_PROXIES := [] }

/-- `cfgDirect` with the stop-on-unexpected policy disabled. -/
def cfgNoStop : Config := { cfgDirect with STOP_ON_UNEXPECTED := false }

/-- A successful Playwright call. -/
def okU : Except PyError Unit := Except.ok ()

/-- A browser run in which every step succeeds, every readback matches
what was written (the coupon readback matches the code `idStream`
generates), and the popup shows the expected failure message. -/
def bOk : Browser :=
  { launch := okU, new_context := okU, new_page := okU, goto := okU,
    ip_lookup := none, wait_healthcheck := okU, wait_popup_root := okU,
    wait_region := okU, select_region := okU,
    region_value := Except.ok "na", wait_member := okU, fill_member := okU,
    member_value := Except.ok "", wait_coupon := okU, fill_coupon := okU,
    coupon_value := Except.ok "ABCDEFGHIJ", wait_redeem := okU,
    click_redeem := okU, wait_popup_on := okU,
    popup_html := Except.ok "The coupon cannot be used in this game.<br>Please check the coupon number again.",
    shot_timestamp := "20250101_000000" }

/-- An exception raised by `chromium.launch`. -/
def errLaunch : PyError := ⟨"boom", false, "Error", ""⟩

/-- A run whose browser launch raises. -/
def bLaunchFail : Browser := { bOk with launch := Except.error errLaunch }

/-- A run whose navigation raises a connection-reset error. -/
def bProxyFail : Browser :=
  { bOk with goto := Except.error ⟨"net::ERR_CONNECTION_RESET", false, "Error", ""⟩ }

/-- A run whose popup markup is the expected message with one leading
space (byte-for-byte different, equal after trimming). -/
def bPadded : Browser :=
  { bOk with popup_html := Except.ok (" " ++ cfgDirect.EXPECTED_POPUP_MESSAGE_HTML) }

/-- A run whose popup markup differs from the expected message. -/
def bDiff : Browser := { bOk with popup_html := Except.ok "Coupon already used." }

/-- A run whose region readback returns a value different from the one set. -/
def bRegionBad : Browser := { bOk with region_value := Except.ok "eu" }

/-- A `PlaywrightTimeoutError` whose message contains no transport marker. -/
def eTimeout : PyError := ⟨"Timeout 10000ms exceeded.", true, "TimeoutError", ""⟩

/-- An error whose message contains the `net::ERR_PROXY` marker. -/
def eMarker : PyError := ⟨"net::ERR_PROXY_CONNECTION_FAILED at host", false, "Error", ""⟩

/-- A six-character error message, for exercising `_one_line_error`. -/
def eShort : PyError := ⟨"abcdef", false, "E", ""⟩

/-- The outcome `run_once` returns for `bProxyFail` under the default
config (computed by evaluation; see the C6 witness). -/
def wOutcome : Outcome :=
  ⟨false, "⚠️ PROXY FAIL socks5://174.138.61.184:1080 → net::ERR_CONNECTION_RESET",
   false, true⟩

/-- An outcome carrying the stop flag. -/
def wStopOutcome : Outcome := ⟨false, "stop", true, false⟩

/-- The invariant the generator's attempt loop maintains: `prev` is the
last emitted character, `counts` agrees with occurrence counts in `out`,
no two adjacent characters of `out` are equal, and no character occurs
more than twice. -/
def GenInv (out : List Char) (prev : Option Char) (counts : Char → Nat) : Prop :=
  prev = out.getLast? ∧ (∀ c, counts c = out.count c) ∧
  List.Chain' (fun a b => a ≠ b) out ∧ ∀ c, out.count c ≤ 2

/-! ## Helper lemmas -/

theorem can_use_true {counts : Char → Nat} {ch : Char} {prev : Option Char}
    (h : can_use counts ch prev = true) : prev ≠ some ch ∧ counts ch < 2 := by
  unfold can_use at h
  by_cases h1 : prev = some ch
  · simp [h1] at h
  · by_cases h2 : 2 ≤ counts ch
    · simp [h1, h2] at h
    · exact ⟨h1, Nat.lt_of_not_le h2⟩

theorem pick_from_sound {stream : Nat → Nat} {charset : List Char}
    {counts : Char → Nat} {prev : Option Char} (hcs : charset ≠ []) :
    ∀ fuel pos ch pos',
      pick_from stream charset counts prev fuel pos = (some ch, pos') →
      ch ∈ charset ∧ prev ≠ some ch ∧ counts ch < 2 := by
  intro fuel
  induction fuel with
  | zero => intro pos ch pos' h; simp [pick_from] at h
  | succ n ih =>
    intro pos ch pos' h
    rw [pick_from] at h
    by_cases hc : can_use counts (charset.getD (stream pos % charset.length) 'A') prev = true
    · rw [if_pos hc] at h
      have hch : charset.getD (stream pos % charset.length) 'A' = ch := by
        have := congrArg Prod.fst h
        simpa using this
      have hlen : 0 < charset.length := List.length_pos.mpr hcs
      have hm : stream pos % charset.length < charset.length := Nat.mod_lt _ hlen
      have hmem : ch ∈ charset := by
        rw [← hch, List.getD_eq_getElem?_getD, List.getElem?_eq_getElem hm]
        exact List.getElem_mem hm
      obtain ⟨hprev, hcnt⟩ := can_use_true (hch ▸ hc)
      exact ⟨hmem, hprev, hcnt⟩
    · rw [if_neg hc] at h
      exact ih _ _ _ h

theorem gen_segment_sound {stream : Nat → Nat} {charset : List Char} (hcs : charset ≠ []) :
    ∀ n out prev counts pos res pos',
      gen_segment stream charset n out prev counts pos = (some res, pos') →
      GenInv out prev counts →
      GenInv res.1 res.2.1 res.2.2 ∧
      ∃ t, res.1 = out ++ t ∧ t.length = n ∧ ∀ c ∈ t, c ∈ charset := by
  intro n
  induction n with
  | zero =>
    intro out prev counts pos res pos' h hinv
    rw [gen_segment] at h
    have hres : res = (out, prev, counts) := by
      have := congrArg Prod.fst h
      simp at this
      exact this.symm
    subst hres
    exact ⟨hinv, [], by simp⟩
  | succ n ih =>
    intro out prev counts pos res pos' h hinv
    rw [gen_segment] at h
    cases hp : pick_from stream charset counts prev 300 pos with
    | mk oc p2 =>
      cases oc with
      | none => rw [hp] at h; simp at h
      | some ch =>
        rw [hp] at h
        obtain ⟨hmem, hprev, hcnt⟩ := pick_from_sound hcs 300 pos ch p2 hp
        obtain ⟨hi1, hi2, hi3, hi4⟩ := hinv
        have hinv' : GenInv (out ++ [ch]) (some ch)
            (fun c => if c = ch then counts c + 1 else counts c) := by
          refine ⟨by simp, ?_, ?_, ?_⟩
          · intro c
            by_cases hcc : c = ch
            · subst hcc
              simp [List.count_append, hi2 c]
            · simp [hcc, List.count_append, hi2 c]
          · refine List.chain'_append.mpr ⟨hi3, by simp, ?_⟩
            intro x hx y hy
            simp at hy
            subst hy
            intro hxy
            exact hprev (by rw [hi1, hx, hxy])
          · intro c
            by_cases hcc : c = ch
            · subst hcc
              have : counts c = out.count c := hi2 c
              have h1 : out.count c ≤ 1 := by omega
              simp [List.count_append]
              omega
            · have := hi4 c
              simp [List.count_append, hcc]
              omega
        obtain ⟨hinv'', t, ht1, ht2, ht3⟩ := ih _ _ _ _ _ _ h hinv'
        refine ⟨hinv'', ch :: t, ?_, by simp [ht2], ?_⟩
        · rw [ht1]; simp
        · intro c hc
          rcases List.mem_cons.mp hc with rfl | hc2
          · exact hmem
          · exact ht3 c hc2

theorem gen_attempt_sound {stream : Nat → Nat} {pos : Nat} {out : List Char} {pos' : Nat}
    (h : gen_attempt stream pos = (some out, pos')) :
    ∃ t1 t2, out = t1 ++ t2 ∧ t1.length = 5 ∧ t2.length = 5 ∧
      (∀ c ∈ t1, c ∈ ALPHANUM) ∧ (∀ c ∈ t2, c ∈ LETTERS) ∧
      List.Chain' (fun a b => a ≠ b) out ∧ ∀ c, out.count c ≤ 2 := by
  rw [gen_attempt] at h
  cases h1 : gen_segment stream ALPHANUM 5 [] none (fun _ => 0) pos with
  | mk o1 p1 =>
    cases o1 with
    | none => rw [h1] at h; simp at h
    | some r1 =>
      obtain ⟨o1, pv1, ct1⟩ := r1
      rw [h1] at h
      obtain ⟨inv1, t1, he1, hl1, hm1⟩ :=
        gen_segment_sound (by decide) 5 [] none (fun _ => 0) pos (o1, pv1, ct1) p1 h1
          ⟨by simp, by simp, by simp, by simp⟩
      simp only at h
      cases h2 : gen_segment stream LETTERS 5 o1 pv1 ct1 p1 with
      | mk o2 p2 =>
        cases o2 with
        | none => rw [h2] at h; simp at h
        | some r2 =>
          obtain ⟨o2', pv2, ct2⟩ := r2
          rw [h2] at h
          obtain ⟨inv2, t2, he2, hl2, hm2⟩ :=
            gen_segment_sound (by decide) 5 o1 pv1 ct1 p1 (o2', pv2, ct2) p2 h2 inv1
          have hout : out = o2' := by
            have := congrArg Prod.fst h
            simpa using this.symm
          subst hout
          refine ⟨t1, t2, ?_, hl1, hl2, hm1, hm2, inv2.2.2.1, inv2.2.2.2⟩
          simp only at he2 he1
          rw [he2, he1]
          simp

theorem gen_loop_sound {stream : Nat → Nat} :
    ∀ fuel pos out, gen_loop stream fuel pos = some out →
      ∃ t1 t2, out = t1 ++ t2 ∧ t1.length = 5 ∧ t2.length = 5 ∧
        (∀ c ∈ t1, c ∈ ALPHANUM) ∧ (∀ c ∈ t2, c ∈ LETTERS) ∧
        List.Chain' (fun a b => a ≠ b) out ∧ ∀ c, out.count c ≤ 2 := by
  intro fuel
  induction fuel with
  | zero => intro pos out h; simp [gen_loop] at h
  | succ n ih =>
    intro pos out h
    rw [gen_loop] at h
    cases ha : gen_attempt stream pos with
    | mk oa pa =>
      cases oa with
      | none => rw [ha] at h; exact ih _ _ h
      | some o =>
        rw [ha] at h
        simp at h
        subst h
        exact gen_attempt_sound ha

theorem alphanum_class : ∀ c ∈ ALPHANUM, c.isUpper = true ∨ c.isDigit = true := by decide

theorem letters_class : ∀ c ∈ LETTERS, c.isUpper = true := by decide

theorem outer_catch_isOk (cfg : Config) (ps : Option String) (ple : Bool)
    (ip : Option String) (co sub : Bool) (e : PyError) :
    (outer_catch cfg ps ple ip co sub e).result.isOk = true := by
  unfold outer_catch
  dsimp only
  split <;> rfl

theorem outer_catch_ok_inv (cfg : Config) (ps : Option String) (ple : Bool)
    (ip : Option String) (co sub : Bool) (e : PyError) (o : Outcome)
    (h : (outer_catch cfg ps ple ip co sub e).result = Except.ok o) :
    o.ok = false ∧ o.should_stop = false := by
  unfold outer_catch at h
  dsimp only at h
  split at h <;> (injection h with h; subst h; exact ⟨rfl, rfl⟩)

theorem outer_catch_trace (cfg : Config) (ps : Option String) (ple : Bool)
    (ip : Option String) (co sub : Bool) (e : PyError) :
    (outer_catch cfg ps ple ip co sub e).coupon_obtained = co ∧
    (outer_catch cfg ps ple ip co sub e).submitted = sub ∧
    (outer_catch cfg ps ple ip co sub e).caught = some e := by
  unfold outer_catch
  dsimp only
  split <;> exact ⟨rfl, rfl, rfl⟩

theorem run_once_flags (cfg : Config) (b : Browser) (stream : Nat → Nat)
    (idx : Nat) : ∀ o, (run_once cfg b stream idx).result = Except.ok o →
    o.should_stop = true → o.proxy_load_error = false := by
  intro o h
  unfold run_once at h
  repeat' split at h
  all_goals first
    | (intro hs; rw [(outer_catch_ok_inv _ _ _ _ _ _ _ _ h).2] at hs; exact Bool.noConfusion hs)
    | contradiction
    | (dsimp only at h; injection h with h; subst h; intro _; rfl)

theorem pyStripList_subset (l : List Char) : ∀ c ∈ pyStripList l, c ∈ l := by
  intro c hc
  unfold pyStripList at hc
  have h1 : c ∈ (l.dropWhile isPySpace).reverse.dropWhile isPySpace := by
    simpa using hc
  have h2 : c ∈ (l.dropWhile isPySpace).reverse :=
    (List.dropWhile_sublist _).subset h1
  have h3 : c ∈ l.dropWhile isPySpace := by simpa using h2
  exact (List.dropWhile_sublist _).subset h3

theorem no_nl_strip_replace (m : String) :
    '\n' ∉ (pyStrip (pyReplaceNl m)).data := by
  intro hc
  have h1 : '\n' ∈ (pyReplaceNl m).data := pyStripList_subset _ _ hc
  unfold pyReplaceNl at h1
  simp only [List.mem_map] at h1
  obtain ⟨x, _, hx⟩ := h1
  by_cases hxn : x = '\n'
  · simp [hxn] at hx
  · simp [hxn] at hx

theorem except_isOk_exists {α β : Type} {x : Except α β} (h : x.isOk = true) :
    ∃ v, x = Except.ok v := by
  cases x with
  | error e => simp [Except.isOk, Except.toBool] at h
  | ok v => exact ⟨v, rfl⟩

/-! ## Claim C1 -/

/-- C1: every string `generate_coupon_code` returns (for any rng
behaviour) has length exactly 10, positions 0-4 uppercase letters or
digits, positions 5-9 uppercase letters, no character equal to its
immediate predecessor, and no character occurring more than twice. -/
theorem generate_coupon_code_valid (stream : Nat → Nat) (code : String)
    (h : generate_coupon_code stream = some code) :
    code.length = 10 ∧
    (∀ i, i < 5 → ((code.data.getD i ' ').isUpper = true ∨ (code.data.getD i ' ').isDigit = true)) ∧
    (∀ i, 5 ≤ i → i < 10 → (code.data.getD i ' ').isUpper = true) ∧
    List.Chain' (fun a b => a ≠ b) code.data ∧
    (∀ c : Char, code.data.count c ≤ 2) := by
  unfold generate_coupon_code at h
  cases hg : gen_loop stream 300 0 with
  | none => rw [hg] at h; simp at h
  | some l =>
    rw [hg] at h
    simp at h
    subst h
    obtain ⟨t1, t2, he, hl1, hl2, hm1, hm2, hch, hcnt⟩ := gen_loop_sound 300 0 l hg
    subst he
    refine ⟨?_, ?_, ?_, hch, hcnt⟩
    · show (t1 ++ t2).length = 10
      simp [hl1, hl2]
    · intro i hi
      have hi1 : i < t1.length := by omega
      have heq : (t1 ++ t2).getD i ' ' = t1.getD i ' ' := List.getD_append _ _ _ _ hi1
      rw [heq]
      have hmem : t1.getD i ' ' ∈ t1 := by
        rw [List.getD_eq_getElem?_getD, List.getElem?_eq_getElem hi1]
        exact List.getElem_mem hi1
      exact alphanum_class _ (hm1 _ hmem)
    · intro i hi5 hi10
      have hi1 : t1.length ≤ i := by omega
      have heq : (t1 ++ t2).getD i ' ' = t2.getD (i - t1.length) ' ' :=
        List.getD_append_right _ _ _ _ hi1
      rw [heq]
      have hi2 : i - t1.length < t2.length := by omega
      have hmem : t2.getD (i - t1.length) ' ' ∈ t2 := by
        rw [List.getD_eq_getElem?_getD, List.getElem?_eq_getElem hi2]
        exact List.getElem_mem hi2
      exact letters_class _ (hm2 _ hmem)

/-- C1 witness: the stream `idStream` makes the generator return
`"ABCDEFGHIJ"`, and the guarantees hold for it. -/
theorem generate_coupon_code_valid_witness :
    ("ABCDEFGHIJ" : String).length = 10 ∧
    (∀ i, i < 5 → ((("ABCDEFGHIJ" : String).data.getD i ' ').isUpper = true ∨
      (("ABCDEFGHIJ" : String).data.getD i ' ').isDigit = true)) ∧
    (∀ i, 5 ≤ i → i < 10 → (("ABCDEFGHIJ" : String).data.getD i ' ').isUpper = true) ∧
    List.Chain' (fun a b => a ≠ b) ("ABCDEFGHIJ" : String).data ∧
    (∀ c : Char, ("ABCDEFGHIJ" : String).data.count c ≤ 2) :=
  generate_coupon_code_valid idStream "ABCDEFGHIJ" (by rfl)

/-! ## Claim C2 -/

/-- C2 counterexample: `eTimeout` is a `PlaywrightTimeoutError` whose
message contains none of the transport-failure markers, yet with
proxy-used=true the attempt-boundary classification (line 512) yields
infrastructure (`true`), refuting the claim's clause that marker-free
messages always classify as application. -/
theorem classify_timeout_counterexample :
    _is_proxyish_playwright_error eTimeout.message = false ∧
    classify_attempt_error true eTimeout = true :=
  ⟨by decide, by rfl⟩

/-- C2 (amended): classification is a pure function of the message
substrings, the timeout-type flag and the proxy-used flag; a marker
with proxy-used=true yields infrastructure, proxy-used=false always
yields application, and a non-timeout error without markers yields
application regardless of the flag. -/
theorem classify_error_spec (e : PyError) :
    (_is_proxyish_playwright_error e.message = true →
      classify_attempt_error true e = true) ∧
    classify_attempt_error false e = false ∧
    (_is_proxyish_playwright_error e.message = false → e.isTimeoutError = false →
      ∀ u, classify_attempt_error u e = false) := by
  refine ⟨?_, rfl, ?_⟩
  · intro hm
    simp [classify_attempt_error, hm]
  · intro hm ht u
    simp [classify_attempt_error, hm, ht]

/-- C2 witness: `eMarker` carries the `net::ERR_PROXY` marker; with a
proxy it classifies as infrastructure, without one as application. -/
theorem classify_error_spec_witness :
    _is_proxyish_playwright_error eMarker.message = true ∧
    classify_attempt_error true eMarker = true ∧
    classify_attempt_error false eMarker = false :=
  ⟨by decide, (classify_error_spec eMarker).1 (by decide),
    (classify_error_spec eMarker).2.1⟩

/-! ## Claim C3 -/

/-- C3 counterexample: when `chromium.launch` raises (lines 341-351 end
in a bare `raise` outside the attempt-boundary `try` of line 361), the
exception propagates out of `run_once` instead of becoming a structured
outcome, refuting the claim that no exception ever escapes. -/
theorem run_once_launch_error_escapes :
    (run_once cfgDirect bLaunchFail idStream 0).result = Except.error errLaunch ∧
    (run_once cfgDirect bLaunchFail idStream 0).result.isOk = false :=
  ⟨by rfl, by rfl⟩

/-- C3 (amended): once the browser, context and page have been created,
every error raised in the attempt body is caught at the attempt
boundary and converted to a structured outcome; only errors from the
launch/context/page setup steps escape `run_once`. -/
theorem run_once_no_escape (cfg : Config) (b : Browser) (stream : Nat → Nat)
    (idx : Nat) (h1 : b.launch = Except.ok ()) (h2 : b.new_context = Except.ok ())
    (h3 : b.new_page = Except.ok ()) :
    (run_once cfg b stream idx).result.isOk = true := by
  unfold run_once
  rw [h1, h2, h3]
  repeat' split
  all_goals first
    | rfl
    | apply outer_catch_isOk
    | contradiction

/-- C3 witness: a fully successful run returns a structured outcome. -/
theorem run_once_no_escape_witness :
    (run_once cfgDirect bOk idStream 0).result.isOk = true :=
  run_once_no_escape cfgDirect bOk idStream 0 (by rfl) (by rfl) (by rfl)

/-! ## Claim C4 -/

/-- C4 counterexample: with the debug override configured to the
non-empty string `" X "`, `_get_coupon_for_run` returns the *stripped*
string `"X"`, not the configured string unmodified. -/
theorem debug_override_strip_counterexample :
    _get_coupon_for_run { DEBUG_COUPON_CODE := " X " } idStream = Except.ok ("X", true) ∧
    ("X" : String) ≠ " X " :=
  ⟨by rfl, by decide⟩

/-- C4 (amended): whenever the debug override strips to a non-empty
string, every call returns that stripped override (equal to the
configured string exactly when it has no surrounding whitespace),
bypassing generation, and flags the result as an override. -/
theorem debug_override_spec (cfg : Config) (stream : Nat → Nat)
    (h : pyStrip cfg.DEBUG_COUPON_CODE ≠ "") :
    _get_coupon_for_run cfg stream = Except.ok (pyStrip cfg.DEBUG_COUPON_CODE, true) := by
  unfold _get_coupon_for_run
  simp [h]

/-- C4 witness: a whitespace-free override is returned verbatim and
flagged. -/
theorem debug_override_spec_witness :
    _get_coupon_for_run { DEBUG_COUPON_CODE := "FIXEDCODE1" } idStream =
      Except.ok ("FIXEDCODE1", true) :=
  debug_override_spec { DEBUG_COUPON_CODE := "FIXEDCODE1" } idStream (by decide)

/-! ## Claim C5 -/

/-- C5 counterexample: the policy string `"NEVER"` is outside the
claim's three recognized values, so the claim says it behaves as
unexpected-only (capture on an unexpected outcome); the code lowercases
it to `"never"` and captures nothing. -/
theorem screenshot_policy_case_counterexample :
    ("NEVER" : String) ≠ "never" ∧ ("NEVER" : String) ≠ "always" ∧
    ("NEVER" : String) ≠ "unexpected-only" ∧
    _should_capture_screenshot { SCREENSHOT_POLICY := "NEVER" } true = false :=
  ⟨by decide, by decide, by decide, by rfl⟩

/-- C5 (amended): the policy is normalized by trimming and lowercasing;
a normalized `"never"` never captures, a normalized `"always"` always
captures, and every other value — the in-code literal `"unexpected"`
as well as unrecognized strings such as `"unexpected-only"` — captures
iff the outcome is unexpected. -/
theorem screenshot_policy_spec (cfg : Config) (u : Bool) :
    (pyLower (pyStrip cfg.SCREENSHOT_POLICY) = "never" →
      _should_capture_screenshot cfg u = false) ∧
    (pyLower (pyStrip cfg.SCREENSHOT_POLICY) = "always" →
      _should_capture_screenshot cfg u = true) ∧
    (pyLower (pyStrip cfg.SCREENSHOT_POLICY) ≠ "never" →
      pyLower (pyStrip cfg.SCREENSHOT_POLICY) ≠ "always" →
      _should_capture_screenshot cfg u = u) := by
  unfold _should_capture_screenshot _normalize_screenshot_policy
  refine ⟨?_, ?_, ?_⟩
  · intro h; simp [h]
  · intro h; simp [h]
  · intro h1 h2
    by_cases h3 : pyLower (pyStrip cfg.SCREENSHOT_POLICY) = "unexpected"
    · simp [h3]
    · simp [h1, h2, h3]

/-- C5 witness: the policy `" ALWAYS "` normalizes to `"always"` and
always captures. -/
theorem screenshot_policy_spec_witness :
    _should_capture_screenshot { SCREENSHOT_POLICY := " ALWAYS " } true = true :=
  (screenshot_policy_spec { SCREENSHOT_POLICY := " ALWAYS " } true).2.1 (by decide)

/-! ## Claim C6 -/

/-- C6: an outcome flagged `proxy_load_error` never carries
`should_stop`, and (when single-run mode is off, so a next attempt
exists) the scheduler's decision for it is to start the next attempt
immediately, skipping the inter-attempt sleep. -/
theorem run_once_infra_immediate (cfg : Config) (b : Browser)
    (stream : Nat → Nat) (idx : Nat) (o : Outcome)
    (h : (run_once cfg b stream idx).result = Except.ok o)
    (hple : o.proxy_load_error = true) (hro : cfg.RUN_ONCE = false) :
    o.should_stop = false ∧ scheduler_next cfg o = SchedulerAction.continueNow := by
  have hs : o.should_stop = false := by
    cases hst : o.should_stop with
    | false => rfl
    | true =>
      rw [run_once_flags cfg b stream idx o h hst] at hple
      exact Bool.noConfusion hple
  refine ⟨hs, ?_⟩
  unfold scheduler_next
  rw [hs, hro, hple]
  simp

/-- C6 witness: a navigation failure through the default proxy pool
yields the infrastructure outcome `wOutcome`, which does not stop and
is retried immediately. -/
theorem run_once_infra_immediate_witness :
    wOutcome.should_stop = false ∧
    scheduler_next CFG wOutcome = SchedulerAction.continueNow :=
  run_once_infra_immediate CFG bProxyFail idStream 0 wOutcome (by rfl) (by rfl) (by rfl)

/-! ## Claim C7 -/

/-- C7: when an attempt's outcome carries `should_stop`, the loop runs
no further attempts (the attempt count of the remaining loop is 1, the
triggering attempt itself) and the process terminates with
`SystemExit(2)` — exit code 2, distinct from the 0 of normal or
single-run completion. -/
theorem scheduler_stop_spec (cfg : Config) (results : Nat → Except PyError Outcome)
    (fuel rc : Nat) (o : Outcome) (h : results (rc + 1) = Except.ok o)
    (hs : o.should_stop = true) :
    main_loop cfg results (fuel + 1) rc = (some ExitStatus.stopUnexpected, 1) ∧
    exitCode ExitStatus.stopUnexpected = 2 ∧ exitCode ExitStatus.completed = 0 := by
  refine ⟨?_, rfl, rfl⟩
  rw [main_loop, h]
  have hn : scheduler_next cfg o = SchedulerAction.stop := by
    unfold scheduler_next
    rw [hs]
    simp
  dsimp only
  rw [hn]

/-- C7 witness: a loop whose first attempt stops exits with code 2
after exactly that one attempt. -/
theorem scheduler_stop_spec_witness :
    main_loop CFG (fun _ => Except.ok wStopOutcome) 1 0 =
      (some ExitStatus.stopUnexpected, 1) ∧
    exitCode ExitStatus.stopUnexpected = 2 ∧ exitCode ExitStatus.completed = 0 :=
  scheduler_stop_spec CFG (fun _ => Except.ok wStopOutcome) 0 0 wStopOutcome (by rfl) (by rfl)

/-! ## Claim C8 -/

/-- C8 counterexample: the comparison is not byte-for-byte on the raw
markup, and an unequal message does not always yield success=false.
With the popup markup equal to the expected message plus one leading
space (byte-unequal), the outcome is still success=true; and with an
unequal message under stop-on-unexpected=false, the outcome is
success=true with should_stop=false rather than success=false. -/
theorem popup_compare_counterexample :
    (" " ++ CFG.EXPECTED_POPUP_MESSAGE_HTML) ≠ CFG.EXPECTED_POPUP_MESSAGE_HTML ∧
    (run_once cfgDirect bPadded idStream 0).result.map Outcome.ok = Except.ok true ∧
    ("Coupon already used." : String) ≠ cfgNoStop.EXPECTED_POPUP_MESSAGE_HTML ∧
    (run_once cfgNoStop bDiff idStream 0).result.map Outcome.ok = Except.ok true ∧
    (run_once cfgNoStop bDiff idStream 0).result.map Outcome.should_stop = Except.ok false :=
  ⟨by decide, by rfl, by decide, by rfl, by rfl⟩

/-- C8 (amended): the popup markup is whitespace-trimmed and then
compared byte-for-byte with the configured expected message; equal
gives success=true, should_stop=false; unequal gives should_stop equal
to the configured stop-on-unexpected flag, with success=false exactly
when that flag is set (success=true, should_stop=false when it is
clear). -/
theorem popup_classification_spec (cfg : Config) (b : Browser) (stream : Nat → Nat)
    (idx : Nat) (c : String) (dbg : Bool) (raw : String)
    (hl : b.launch = Except.ok ()) (hc : b.new_context = Except.ok ())
    (hp : b.new_page = Except.ok ()) (hg : b.goto = Except.ok ())
    (hh : b.wait_healthcheck = Except.ok ()) (hpr : b.wait_popup_root = Except.ok ())
    (hwr : b.wait_region = Except.ok ()) (hsr : b.select_region = Except.ok ())
    (hrv : b.region_value = Except.ok cfg.REGION_VALUE)
    (hwm : b.wait_member = Except.ok ()) (hfm : b.fill_member = Except.ok ())
    (hmv : b.member_value = Except.ok cfg.MEMBER_CODE_VALUE)
    (hcp : _get_coupon_for_run cfg stream = Except.ok (c, dbg))
    (hwc : b.wait_coupon = Except.ok ()) (hfc : b.fill_coupon = Except.ok ())
    (hcv : b.coupon_value = Except.ok c)
    (hwb : b.wait_redeem = Except.ok ()) (hcl : b.click_redeem = Except.ok ())
    (hpw : b.wait_popup_on = Except.ok ()) (hph : b.popup_html = Except.ok raw) :
    ∃ o, (run_once cfg b stream idx).result = Except.ok o ∧
      (pyStrip raw = cfg.EXPECTED_POPUP_MESSAGE_HTML →
        o.ok = true ∧ o.should_stop = false) ∧
      (pyStrip raw ≠ cfg.EXPECTED_POPUP_MESSAGE_HTML →
        o.ok = (!cfg.STOP_ON_UNEXPECTED) ∧ o.should_stop = cfg.STOP_ON_UNEXPECTED) := by
  unfold run_once
  simp only [hl, hc, hp, hg, hh, hpr, hwr, hsr, hrv, hwm, hfm, hmv, hcp, hwc, hfc,
    hcv, hwb, hcl, hpw, hph]
  simp only [ne_eq, not_true_eq_false, if_false]
  by_cases he : pyStrip raw = cfg.EXPECTED_POPUP_MESSAGE_HTML
  · rw [if_neg (by simp [he])]
    exact ⟨_, rfl, fun _ => ⟨rfl, rfl⟩, fun hne => absurd he hne⟩
  · cases hst : cfg.STOP_ON_UNEXPECTED with
    | true =>
      rw [if_pos (by simp [he, hst])]
      exact ⟨_, rfl, fun heq => absurd heq he, fun _ => ⟨by simp [hst], by simp [hst]⟩⟩
    | false =>
      rw [if_neg (by simp [hst])]
      exact ⟨_, rfl, fun heq => absurd heq he, fun _ => ⟨by simp [hst], by simp [hst]⟩⟩

/-- C8 witness: the all-successful run `bOk` (whose popup shows the
expected message) classifies as the expected failure. -/
theorem popup_classification_spec_witness :
    ∃ o, (run_once cfgDirect bOk idStream 0).result = Except.ok o ∧
      (pyStrip "The coupon cannot be used in this game.<br>Please check the coupon number again." =
          cfgDirect.EXPECTED_POPUP_MESSAGE_HTML →
        o.ok = true ∧ o.should_stop = false) ∧
      (pyStrip "The coupon cannot be used in this game.<br>Please check the coupon number again." ≠
          cfgDirect.EXPECTED_POPUP_MESSAGE_HTML →
        o.ok = (!cfgDirect.STOP_ON_UNEXPECTED) ∧
        o.should_stop = cfgDirect.STOP_ON_UNEXPECTED) :=
  popup_classification_spec cfgDirect bOk idStream 0 "ABCDEFGHIJ" false
    "The coupon cannot be used in this game.<br>Please check the coupon number again."
    (by rfl) (by rfl) (by rfl) (by rfl) (by rfl) (by rfl) (by rfl) (by rfl) (by rfl) (by rfl)
    (by rfl) (by rfl) (by rfl) (by rfl) (by rfl) (by rfl) (by rfl) (by rfl) (by rfl) (by rfl)

/-! ## Claim C9 -/

/-- C9: when the region-select readback differs from the value that was
set, the attempt fails before submission with the verification-mismatch
`RuntimeError` caught at the attempt boundary, the outcome is a
non-stopping failure, and no coupon was generated or consumed. -/
theorem region_mismatch_spec (cfg : Config) (b : Browser) (stream : Nat → Nat)
    (idx : Nat) (v : String)
    (hl : b.launch = Except.ok ()) (hc : b.new_context = Except.ok ())
    (hp : b.new_page = Except.ok ()) (hg : b.goto = Except.ok ())
    (hh : b.wait_healthcheck = Except.ok ()) (hpr : b.wait_popup_root = Except.ok ())
    (hwr : b.wait_region = Except.ok ()) (hsr : b.select_region = Except.ok ())
    (hrv : b.region_value = Except.ok v) (hne : v ≠ cfg.REGION_VALUE) :
    (run_once cfg b stream idx).coupon_obtained = false ∧
    (run_once cfg b stream idx).submitted = false ∧
    (run_once cfg b stream idx).caught =
      some (mkRuntimeError ("Region selection failed: expected \x27" ++ cfg.REGION_VALUE
        ++ "\x27, got \x27" ++ v ++ "\x27")) ∧
    ∃ o, (run_once cfg b stream idx).result = Except.ok o ∧
      o.ok = false ∧ o.should_stop = false := by
  unfold run_once
  simp only [hl, hc, hp, hg, hh, hpr, hwr, hsr, hrv]
  rw [if_pos hne]
  refine ⟨(outer_catch_trace _ _ _ _ _ _ _).1, (outer_catch_trace _ _ _ _ _ _ _).2.1,
    (outer_catch_trace _ _ _ _ _ _ _).2.2, ?_⟩
  obtain ⟨o, ho⟩ := except_isOk_exists (outer_catch_isOk _ _ _ _ _ _ _)
  exact ⟨o, ho, (outer_catch_ok_inv _ _ _ _ _ _ _ _ ho).1,
    (outer_catch_ok_inv _ _ _ _ _ _ _ _ ho).2⟩

/-- C9 witness: a readback of `"eu"` against the configured `"na"`
fails verification before submission, with no coupon consumed. -/
theorem region_mismatch_spec_witness :
    (run_once cfgDirect bRegionBad idStream 0).coupon_obtained = false ∧
    (run_once cfgDirect bRegionBad idStream 0).submitted = false ∧
    (run_once cfgDirect bRegionBad idStream 0).caught =
      some (mkRuntimeError ("Region selection failed: expected \x27" ++ cfgDirect.REGION_VALUE
        ++ "\x27, got \x27" ++ "eu" ++ "\x27")) ∧
    ∃ o, (run_once cfgDirect bRegionBad idStream 0).result = Except.ok o ∧
      o.ok = false ∧ o.should_stop = false :=
  region_mismatch_spec cfgDirect bRegionBad idStream 0 "eu"
    (by rfl) (by rfl) (by rfl) (by rfl) (by rfl) (by rfl) (by rfl) (by rfl) (by rfl)
    (by decide)

/-! ## Claim C10 -/

/-- C10 counterexample: with the positive limit 2 and the six-character
message `"abcdef"`, the Python slice `s[:limit-3]` is `s[:-1]`, so the
result is `"abcde..."` — eight characters, not the claimed exactly-limit
truncation. -/
theorem one_line_error_counterexample :
    2 < (pyStrip (pyReplaceNl eShort.message)).length ∧
    _one_line_error eShort 2 = "abcde..." ∧
    String.length (_one_line_error eShort 2) ≠ 2 :=
  ⟨by decide, by rfl, by decide⟩

/-- C10 (amended): for every exception and limit of at least 3 (the
call sites use the default 180), the result is non-empty and free of
newlines; when the newline-flattened, whitespace-trimmed message is
longer than the limit, the result is exactly limit characters long and
ends in `"..."`; and when that message is empty the result is the
exception's type name.  (For limits 1 and 2 the negative Python slice
makes the result longer than the limit.) -/
theorem one_line_error_spec (e : PyError) (limit : Nat) (h3 : 3 ≤ limit)
    (htn : e.typeName ≠ "") (htn2 : '\n' ∉ e.typeName.data) :
    _one_line_error e limit ≠ "" ∧
    '\n' ∉ (_one_line_error e limit).data ∧
    (limit < (pyStrip (pyReplaceNl e.message)).length →
      String.length (_one_line_error e limit) = limit ∧
      (_one_line_error e limit).data.drop (limit - 3) = ['.', '.', '.']) ∧
    (pyStrip (pyReplaceNl e.message) = "" → _one_line_error e limit = e.typeName) := by
  unfold _one_line_error
  dsimp only
  by_cases hl : limit < (pyStrip (pyReplaceNl e.message)).length
  · rw [if_pos hl]
    have hsl : pySliceTo (pyStrip (pyReplaceNl e.message)).data ((limit : Int) - 3) =
        (pyStrip (pyReplaceNl e.message)).data.take (limit - 3) := by
      unfold pySliceTo
      rw [if_neg (by omega)]
      congr 1
      omega
    rw [hsl]
    have hl2 : limit < (pyStrip (pyReplaceNl e.message)).data.length := hl
    have htklen : ((pyStrip (pyReplaceNl e.message)).data.take (limit - 3)).length = limit - 3 := by
      rw [List.length_take]
      omega
    have hdata : (String.mk ((pyStrip (pyReplaceNl e.message)).data.take (limit - 3)) ++ "...").data =
        (pyStrip (pyReplaceNl e.message)).data.take (limit - 3) ++ ['.', '.', '.'] := by rfl
    have hne : String.mk ((pyStrip (pyReplaceNl e.message)).data.take (limit - 3)) ++ "..." ≠ "" := by
      intro hcon
      have := congrArg String.data hcon
      rw [hdata] at this
      simp at this
    rw [if_neg hne]
    refine ⟨hne, ?_, ?_, ?_⟩
    · rw [hdata]
      intro hmem
      rcases List.mem_append.mp hmem with hm | hm
      · exact no_nl_strip_replace e.message (List.mem_of_mem_take hm)
      · simp at hm
    · intro _
      constructor
      · show (String.mk _ ++ "...").length = limit
        rw [String.length_append]
        have : (String.mk ((pyStrip (pyReplaceNl e.message)).data.take (limit - 3))).length = limit - 3 := by
          show ((pyStrip (pyReplaceNl e.message)).data.take (limit - 3)).length = limit - 3
          exact htklen
        rw [this]
        show limit - 3 + 3 = limit
        omega
      · rw [hdata]
        nth_rewrite 1 [← htklen]
        rw [List.drop_left]
    · intro hemp
      rw [hemp] at hl2
      simp at hl2
  · rw [if_neg hl]
    by_cases hemp : pyStrip (pyReplaceNl e.message) = ""
    · rw [if_pos hemp]
      exact ⟨htn, htn2, fun hc => absurd hc hl, fun _ => rfl⟩
    · rw [if_neg hemp]
      refine ⟨hemp, no_nl_strip_replace e.message, fun hc => absurd hc hl, fun hc => absurd hc hemp⟩

/-- C10 witness: `RuntimeError("boom\nbam")` at limit 5 flattens to
`"boom bam"` and truncates to the five-character `"bo..."`. -/
theorem one_line_error_spec_witness :
    _one_line_error (mkRuntimeError "boom\nbam") 5 ≠ "" ∧
    '\n' ∉ (_one_line_error (mkRuntimeError "boom\nbam") 5).data ∧
    (5 < (pyStrip (pyReplaceNl (mkRuntimeError "boom\nbam").message)).length →
      String.length (_one_line_error (mkRuntimeError "boom\nbam") 5) = 5 ∧
      (_one_line_error (mkRuntimeError "boom\nbam") 5).data.drop (5 - 3) = ['.', '.', '.']) ∧
    (pyStrip (pyReplaceNl (mkRuntimeError "boom\nbam").message) = "" →
      _one_line_error (mkRuntimeError "boom\nbam") 5 = (mkRuntimeError "boom\nbam").typeName) :=
  one_line_error_spec (mkRuntimeError "boom\nbam") 5 (by decide) (by decide) (by decide)
